import Mathlib

/-!
Verification of the skyline-apiserver login module
(`src/skyline_apiserver/api/v1/login.py`).

The file under analysis contains four FastAPI request handlers — `login`,
`get_profile`, `logout`, `switch_project` — plus the helper `_patch_profile`.
All non-trivial work (password authentication, token scoping, profile
construction, endpoint/project lookups, token revocation, session encoding)
is delegated to collaborator functions from other modules of the repository
and from the keystone client libraries; none of that code is part of the
analyzed source.  We therefore embed the handlers over an abstract
environment `Env` whose members stand for those collaborators: each fallible
call is a function into `Except Exc _`, mirroring a Python call that may
raise.  The handlers additionally return the ordered trace of collaborator
calls they attempted, so that claims of the form "X is never attempted" are
statable.
-/

namespace Skyline

/-- `status.HTTP_401_UNAUTHORIZED` from the FastAPI `status` module. -/
def HTTP_401_UNAUTHORIZED : Nat := 401

/-- A Python exception as observed by the handlers: either a plain exception
carrying a message, or a FastAPI/Starlette `HTTPException` carrying a status
code and a detail string. -/
inductive Exc where
  | plain (msg : String)
  | http (statusCode : Nat) (detail : String)
deriving Repr, DecidableEq

/-- `str(e)` for an exception.  A plain `Exception("m")` stringifies to its
message; Starlette's `HTTPException.__str__` renders as
`"{status_code}: {detail}"`. -/
def Exc.msg : Exc → String
  | .plain m => m
  | .http s d => toString s ++ ": " ++ d

/-- The error half of an HTTP response produced from an exception: the
status code and detail that reach the client. -/
structure HTTPErr where
  status_code : Nat
  detail : String
deriving Repr, DecidableEq

/-- Raising `HTTPException(status_code=HTTP_401_UNAUTHORIZED, detail=str(e))`,
as done in the `except` clauses of `login`, `switch_project` and
`_patch_profile`. -/
def Exc.raise401 (e : Exc) : HTTPErr :=
  ⟨HTTP_401_UNAUTHORIZED, e.msg⟩

/-- The response the framework produces for an exception that escapes a
handler uncaught: an `HTTPException` becomes a response with its own status
and detail; any other exception becomes a 500. -/
def Exc.asResponse : Exc → HTTPErr
  | .http s d => ⟨s, d⟩
  | .plain _ => ⟨500, "Internal Server Error"⟩

/-- The user identity inside a profile; the handlers only read `user.id`. -/
structure User where
  id : String
deriving Repr, DecidableEq

/-- Payload of the endpoint catalog returned by `get_endpoints`; opaque to
the analyzed file, which only stores it. -/
abbrev Endpoints := List (String × String)

/-- Payload of the project list returned by `get_projects`; opaque to the
analyzed file, which only stores it. -/
abbrev ProjectsInfo := List (String × String)

/-- Modelled from the spec: the profile record built by the external profile
builder (`skyline_apiserver.core.security.generate_profile`, not part of the
analyzed source) — "user identity, region, project scope, keystone token,
expiry, UUID", plus the `endpoints` and `projects` slots that
`_patch_profile` fills in. -/
structure Profile where
  user : User
  region : String
  project : String
  keystone_token : String
  exp : Nat
  uuid : String
  endpoints : Option Endpoints
  projects : Option ProjectsInfo
deriving Repr, DecidableEq

/-- The request body of `login`: `schemas.Credential`. -/
structure Credential where
  region : String
  domain : String
  username : String
  password : String
deriving Repr, DecidableEq

/-- One project scope returned by `unscope_client.auth.projects()`; the
handler reads `.enabled` and `.id`. -/
structure ProjectScope where
  id : String
  enabled : Bool
deriving Repr, DecidableEq

/-- The access token parsed from the session payload by
`parse_access_token`; `logout` reads `.keystone_token`. -/
structure AccessToken where
  keystone_token : String
deriving Repr, DecidableEq

/-- The mutable response state a handler touches: the cookies it set and the
cookies it deleted, in order. -/
structure Response where
  cookies : List (String × String)
  deleted : List String
deriving Repr, DecidableEq

/-- `schemas.common.OK`, the body returned by `logout`. -/
structure OK where
  message : String
deriving Repr, DecidableEq

/-- One attempted collaborator call, recorded in program order.  Arguments
that the handler computes are recorded; opaque intermediate objects
(profiles, sessions) are not repeated. -/
inductive Call where
  | get_endpoint (region service : String)
  | auth_projects (auth_url domain username : String)
  | get_token (auth_url domain username : String)
  | get_project_scope_token (keystone_token region project_id : String)
  | generate_profile (keystone_token region : String) (uuid_value : Option String)
  | get_endpoints (region : String)
  | get_projects (region user : String)
  | parse_access_token (payload : String)
  | generate_profile_by_token
  | generate_session
  | revoke_token (keystone_token : String)
  | db_revoke_token (uuid : String) (exp : Nat)
deriving Repr, DecidableEq

/-- Whether a call is the token-scoping call `get_project_scope_token`. -/
def Call.isScopeToken : Call → Bool
  | .get_project_scope_token _ _ _ => true
  | _ => false

/-- Whether a call is the profile-generation call `generate_profile`. -/
def Call.isGenerateProfile : Call → Bool
  | .generate_profile _ _ _ => true
  | _ => false

/-- The environment of collaborator functions the handlers delegate to.
Every member stands for code outside the analyzed file (other
skyline_apiserver modules or the keystone client libraries); a member
returning `Except.error e` models that call raising exception `e`.
Modelled from the spec: the identity-service client, the session/profile
builder and the revocation store are opaque external collaborators reached
through a stable interface. -/
structure Env where
  /-- `CONF.default.session_name`. -/
  session_name : String
  /-- `utils.get_endpoint(region, service, session=get_system_session())`. -/
  get_endpoint : String → String → Except Exc String
  /-- `unscope_client.auth.projects()` for the session built from
  `Password(auth_url, user_domain_name, username, password)`. -/
  auth_projects : String → String → String → String → Except Exc (List ProjectScope)
  /-- `session.get_token()` on that same password session. -/
  get_token : String → String → String → String → Except Exc String
  /-- `get_project_scope_token(keystone_token, region, project_id)`. -/
  get_project_scope_token : String → String → String → Except Exc String
  /-- `generate_profile(keystone_token, region)` /
  `generate_profile(keystone_token, region, uuid_value)`. -/
  generate_profile : String → String → Option String → Except Exc Profile
  /-- `get_endpoints(region)`. -/
  get_endpoints : String → Except Exc Endpoints
  /-- `get_projects(region, user)`. -/
  get_projects : String → String → Except Exc ProjectsInfo
  /-- `profile.toJWTPayload()`, the session codec. -/
  toJWTPayload : Profile → String
  /-- `parse_access_token(payload)`. -/
  parse_access_token : String → Except Exc AccessToken
  /-- `generate_profile_by_token(token)`. -/
  generate_profile_by_token : AccessToken → Except Exc Profile
  /-- `generate_session(profile)`; the session object itself is opaque. -/
  generate_session : Profile → Except Exc String
  /-- `revoke_token(profile, session, token.keystone_token)`. -/
  revoke_token : Profile → String → String → Except Exc Unit
  /-- `db_api.revoke_token(profile.uuid, profile.exp)`. -/
  db_revoke_token : String → Nat → Except Exc Unit

/-- `_patch_profile(profile)`: look up the endpoint catalog for the
profile's region and the project list for its region and user id, store
both on the profile, and wrap any exception in a 401 `HTTPException` whose
detail is the exception's string form. -/
def _patch_profile (env : Env) (profile : Profile) :
    Except Exc Profile × List Call :=
  let t1 : List Call := [.get_endpoints profile.region]
  match env.get_endpoints profile.region with
  | .error e => (.error (.http HTTP_401_UNAUTHORIZED e.msg), t1)
  | .ok endpoints =>
    let profile := { profile with endpoints := some endpoints }
    let t2 := t1 ++ [.get_projects profile.region profile.user.id]
    match env.get_projects profile.region profile.user.id with
    | .error e => (.error (.http HTTP_401_UNAUTHORIZED e.msg), t2)
    | .ok projects => (.ok { profile with projects := some projects }, t2)

/-- `login(credential, response)`: resolve the keystone endpoint, list the
projects visible to the password-authenticated user, keep the enabled ones,
reject when none remain, exchange the unscoped token for one scoped to the
first enabled project, build the profile, patch it, and either set the
session cookie and return the profile, or map the exception to a 401. -/
def login (env : Env) (credential : Credential) (response : Response) :
    Except HTTPErr Profile × Response × List Call :=
  let t1 : List Call := [.get_endpoint credential.region "keystone"]
  match env.get_endpoint credential.region "keystone" with
  | .error e => (.error e.raise401, response, t1)
  | .ok auth_url =>
    let t2 := t1 ++ [.auth_projects auth_url credential.domain credential.username]
    match env.auth_projects auth_url credential.domain credential.username credential.password with
    | .error e => (.error e.raise401, response, t2)
    | .ok project_scope =>
      match project_scope.filter (fun scope => scope.enabled) with
      | [] =>
        (.error (Exc.plain "You are not authorized for any projects or domains.").raise401,
         response, t2)
      | scope0 :: _ =>
        let t3 := t2 ++ [.get_token auth_url credential.domain credential.username]
        match env.get_token auth_url credential.domain credential.username credential.password with
        | .error e => (.error e.raise401, response, t3)
        | .ok keystone_token =>
          let t4 := t3 ++ [.get_project_scope_token keystone_token credential.region scope0.id]
          match env.get_project_scope_token keystone_token credential.region scope0.id with
          | .error e => (.error e.raise401, response, t4)
          | .ok project_scope_token =>
            let t5 := t4 ++ [.generate_profile project_scope_token credential.region none]
            match env.generate_profile project_scope_token credential.region none with
            | .error e => (.error e.raise401, response, t5)
            | .ok profile =>
              match _patch_profile env profile with
              | (.error e, tp) => (.error e.raise401, response, t5 ++ tp)
              | (.ok profile, tp) =>
                (.ok profile,
                 { response with
                     cookies := response.cookies ++ [(env.session_name, env.toJWTPayload profile)] },
                 t5 ++ tp)

/-- `get_profile(profile)`: patch the session profile; an exception raised
by `_patch_profile` (always an `HTTPException`) propagates uncaught and
becomes the response. -/
def get_profile (env : Env) (profile : Profile) :
    Except HTTPErr Profile × List Call :=
  match _patch_profile env profile with
  | (.error e, t) => (.error e.asResponse, t)
  | (.ok p, t) => (.ok p, t)

/-- Python truthiness of the optional session payload: `if payload:`. -/
def truthy : Option String → Bool
  | none => false
  | some s => !s.isEmpty

/-- `logout(response, request, payload)`: when the payload is truthy, try
the revocation chain (parse token, rebuild profile, build session, revoke at
keystone, revoke in the database), swallowing any exception; always delete
the session cookie and return `OK("Logout OK")`. -/
def logout (env : Env) (payload : Option String) (response : Response) :
    OK × Response × List Call :=
  let t : List Call :=
    match payload with
    | none => []
    | some p =>
      if p.isEmpty then []
      else
        let t1 : List Call := [.parse_access_token p]
        match env.parse_access_token p with
        | .error _ => t1
        | .ok token =>
          let t2 := t1 ++ [Call.generate_profile_by_token]
          match env.generate_profile_by_token token with
          | .error _ => t2
          | .ok profile =>
            let t3 := t2 ++ [Call.generate_session]
            match env.generate_session profile with
            | .error _ => t3
            | .ok session =>
              let t4 := t3 ++ [Call.revoke_token token.keystone_token]
              match env.revoke_token profile session token.keystone_token with
              | .error _ => t4
              | .ok _ =>
                let t5 := t4 ++ [Call.db_revoke_token profile.uuid profile.exp]
                match env.db_revoke_token profile.uuid profile.exp with
                | .error _ => t5
                | .ok _ => t5
  (⟨"Logout OK"⟩,
   { response with deleted := response.deleted ++ [env.session_name] },
   t)

/-- `switch_project(project_id, response, profile)`: exchange the session
profile's token for one scoped to `project_id` in the same region, rebuild
the profile keeping the session uuid, patch it, and either set the session
cookie and return it, or map the exception to a 401. -/
def switch_project (env : Env) (project_id : String) (profile : Profile)
    (response : Response) :
    Except HTTPErr Profile × Response × List Call :=
  let t1 : List Call :=
    [.get_project_scope_token profile.keystone_token profile.region project_id]
  match env.get_project_scope_token profile.keystone_token profile.region project_id with
  | .error e => (.error e.raise401, response, t1)
  | .ok project_scope_token =>
    let t2 := t1 ++ [.generate_profile project_scope_token profile.region (some profile.uuid)]
    match env.generate_profile project_scope_token profile.region (some profile.uuid) with
    | .error e => (.error e.raise401, response, t2)
    | .ok profile2 =>
      match _patch_profile env profile2 with
      | (.error e, tp) => (.error e.raise401, response, t2 ++ tp)
      | (.ok profile3, tp) =>
        (.ok profile3,
         { response with
             cookies := response.cookies ++ [(env.session_name, env.toJWTPayload profile3)] },
         t2 ++ tp)

/-! ### Concrete environments and data for witnesses and counterexamples -/

/-- A sample user. -/
def user0 : User := ⟨"user-1"⟩

/-- A sample session profile, with `endpoints` and `projects` not yet
filled in. -/
def profile0 : Profile :=
  { user := user0, region := "RegionOne", project := "proj-0",
    keystone_token := "tok-0", exp := 100, uuid := "uuid-0",
    endpoints := none, projects := none }

/-- A sample credential. -/
def cred0 : Credential := ⟨"RegionOne", "Default", "alice", "pw"⟩

/-- The empty response state. -/
def r0 : Response := ⟨[], []⟩

/-- An environment in which every collaborator call succeeds.  The profile
builder honours its arguments: the built profile carries the supplied
keystone token, region and uuid. -/
def envOK : Env :=
  { session_name := "session"
    get_endpoint := fun _ _ => .ok "http://keystone"
    auth_projects := fun _ _ _ _ => .ok [⟨"proj-off", false⟩, ⟨"proj-1", true⟩]
    get_token := fun _ _ _ _ => .ok "unscoped-tok"
    get_project_scope_token := fun tok _ pid => .ok ("scoped:" ++ tok ++ ":" ++ pid)
    generate_profile := fun tok reg u =>
      .ok { user := user0, region := reg, project := "proj-1",
            keystone_token := tok, exp := 100,
            uuid := u.getD "uuid-new", endpoints := none, projects := none }
    get_endpoints := fun _ => .ok [("keystone", "http://ks")]
    get_projects := fun _ _ => .ok [("proj-1", "Project One")]
    toJWTPayload := fun p => "jwt:" ++ p.uuid
    parse_access_token := fun _ => .ok ⟨"tok-0"⟩
    generate_profile_by_token := fun t =>
      .ok { profile0 with keystone_token := t.keystone_token }
    generate_session := fun _ => .ok "os-session"
    revoke_token := fun _ _ _ => .ok ()
    db_revoke_token := fun _ _ => .ok () }

/-- An environment in which every collaborator call raises
`Exception("boom")`. -/
def envBad : Env :=
  { session_name := "session"
    get_endpoint := fun _ _ => .error (.plain "boom")
    auth_projects := fun _ _ _ _ => .error (.plain "boom")
    get_token := fun _ _ _ _ => .error (.plain "boom")
    get_project_scope_token := fun _ _ _ => .error (.plain "boom")
    generate_profile := fun _ _ _ => .error (.plain "boom")
    get_endpoints := fun _ => .error (.plain "boom")
    get_projects := fun _ _ => .error (.plain "boom")
    toJWTPayload := fun _ => "jwt"
    parse_access_token := fun _ => .error (.plain "boom")
    generate_profile_by_token := fun _ => .error (.plain "boom")
    generate_session := fun _ => .error (.plain "boom")
    revoke_token := fun _ _ _ => .error (.plain "boom")
    db_revoke_token := fun _ _ => .error (.plain "boom")}

/-- Like `envOK`, but the identity service reports only a disabled
project. -/
def envNoProj : Env :=
  { envOK with auth_projects := fun _ _ _ _ => .ok [⟨"proj-off", false⟩] }

/-! ### Helper lemmas: `_patch_profile` -/

/-- A successful `_patch_profile` run performed exactly the two lookups and
its result is the input profile with `endpoints` and `projects`
overwritten. -/
lemma _patch_profile_ok (env : Env) (p q : Profile)
    (h : (_patch_profile env p).1 = .ok q) :
    ∃ eps prs, env.get_endpoints p.region = .ok eps ∧
      env.get_projects p.region p.user.id = .ok prs ∧
      q = { p with endpoints := some eps, projects := some prs } := by
  rcases hE : env.get_endpoints p.region with e | eps <;>
    simp only [_patch_profile, hE] at h
  · cases h
  · rcases hP : env.get_projects p.region p.user.id with e | prs <;>
      simp only [hP] at h
    · cases h
    · exact ⟨eps, prs, rfl, rfl, by cases h; rfl⟩

/-- Every exception `_patch_profile` raises is an `HTTPException` with
status 401. -/
lemma _patch_profile_error_http (env : Env) (p : Profile) (e : Exc)
    (h : (_patch_profile env p).1 = .error e) :
    ∃ d, e = .http HTTP_401_UNAUTHORIZED d := by
  rcases hE : env.get_endpoints p.region with e1 | eps <;>
    simp only [_patch_profile, hE] at h
  · exact ⟨e1.msg, by cases h; rfl⟩
  · rcases hP : env.get_projects p.region p.user.id with e2 | prs <;>
      simp only [hP] at h
    · exact ⟨e2.msg, by cases h; rfl⟩
    · cases h

/-! ### Helper lemmas: `login` scenarios -/

/-- When the keystone endpoint lookup raises, `login` answers 401 with the
exception's message, leaves the response untouched, and stops. -/
lemma login_err_get_endpoint (env : Env) (c : Credential) (r : Response) (e : Exc)
    (h1 : env.get_endpoint c.region "keystone" = .error e) :
    login env c r =
      (.error ⟨HTTP_401_UNAUTHORIZED, e.msg⟩, r, [.get_endpoint c.region "keystone"]) := by
  simp only [login, h1, Exc.raise401]

/-- When project enumeration raises, `login` answers 401 with the
exception's message and leaves the response untouched. -/
lemma login_err_auth_projects (env : Env) (c : Credential) (r : Response)
    (u : String) (e : Exc)
    (h1 : env.get_endpoint c.region "keystone" = .ok u)
    (h2 : env.auth_projects u c.domain c.username c.password = .error e) :
    login env c r =
      (.error ⟨HTTP_401_UNAUTHORIZED, e.msg⟩, r,
       [.get_endpoint c.region "keystone", .auth_projects u c.domain c.username]) := by
  simp only [login, h1, h2, Exc.raise401, List.cons_append, List.nil_append]

/-- When no enabled project remains, `login` answers 401 with the fixed
message and attempts nothing further. -/
lemma login_no_enabled (env : Env) (c : Credential) (r : Response)
    (u : String) (scopes : List ProjectScope)
    (h1 : env.get_endpoint c.region "keystone" = .ok u)
    (h2 : env.auth_projects u c.domain c.username c.password = .ok scopes)
    (h3 : scopes.filter (fun scope => scope.enabled) = []) :
    login env c r =
      (.error ⟨HTTP_401_UNAUTHORIZED, "You are not authorized for any projects or domains."⟩,
       r, [.get_endpoint c.region "keystone", .auth_projects u c.domain c.username]) := by
  simp only [login, h1, h2, h3, Exc.raise401, Exc.msg, List.cons_append, List.nil_append]

/-- When fetching the unscoped token raises, `login` answers 401 with the
exception's message. -/
lemma login_err_get_token (env : Env) (c : Credential) (r : Response)
    (u : String) (scopes : List ProjectScope) (s0 : ProjectScope)
    (rest : List ProjectScope) (e : Exc)
    (h1 : env.get_endpoint c.region "keystone" = .ok u)
    (h2 : env.auth_projects u c.domain c.username c.password = .ok scopes)
    (h3 : scopes.filter (fun scope => scope.enabled) = s0 :: rest)
    (h4 : env.get_token u c.domain c.username c.password = .error e) :
    login env c r =
      (.error ⟨HTTP_401_UNAUTHORIZED, e.msg⟩, r,
       [.get_endpoint c.region "keystone", .auth_projects u c.domain c.username,
        .get_token u c.domain c.username]) := by
  simp only [login, h1, h2, h3, h4, Exc.raise401, List.cons_append, List.nil_append]

/-- When token scoping raises, `login` answers 401 with the exception's
message. -/
lemma login_err_scope_token (env : Env) (c : Credential) (r : Response)
    (u kt : String) (scopes : List ProjectScope) (s0 : ProjectScope)
    (rest : List ProjectScope) (e : Exc)
    (h1 : env.get_endpoint c.region "keystone" = .ok u)
    (h2 : env.auth_projects u c.domain c.username c.password = .ok scopes)
    (h3 : scopes.filter (fun scope => scope.enabled) = s0 :: rest)
    (h4 : env.get_token u c.domain c.username c.password = .ok kt)
    (h5 : env.get_project_scope_token kt c.region s0.id = .error e) :
    login env c r =
      (.error ⟨HTTP_401_UNAUTHORIZED, e.msg⟩, r,
       [.get_endpoint c.region "keystone", .auth_projects u c.domain c.username,
        .get_token u c.domain c.username,
        .get_project_scope_token kt c.region s0.id]) := by
  simp only [login, h1, h2, h3, h4, h5, Exc.raise401, List.cons_append, List.nil_append]

/-- When profile generation raises, `login` answers 401 with the
exception's message. -/
lemma login_err_generate_profile (env : Env) (c : Credential) (r : Response)
    (u kt st : String) (scopes : List ProjectScope) (s0 : ProjectScope)
    (rest : List ProjectScope) (e : Exc)
    (h1 : env.get_endpoint c.region "keystone" = .ok u)
    (h2 : env.auth_projects u c.domain c.username c.password = .ok scopes)
    (h3 : scopes.filter (fun scope => scope.enabled) = s0 :: rest)
    (h4 : env.get_token u c.domain c.username c.password = .ok kt)
    (h5 : env.get_project_scope_token kt c.region s0.id = .ok st)
    (h6 : env.generate_profile st c.region none = .error e) :
    login env c r =
      (.error ⟨HTTP_401_UNAUTHORIZED, e.msg⟩, r,
       [.get_endpoint c.region "keystone", .auth_projects u c.domain c.username,
        .get_token u c.domain c.username,
        .get_project_scope_token kt c.region s0.id,
        .generate_profile st c.region none]) := by
  simp only [login, h1, h2, h3, h4, h5, h6, Exc.raise401, List.cons_append, List.nil_append]

/-- When `_patch_profile` raises, `login` answers 401 with that raised
exception's message (the string form of the `HTTPException`
`_patch_profile` raised). -/
lemma login_err_patch (env : Env) (c : Credential) (r : Response)
    (u kt st : String) (scopes : List ProjectScope) (s0 : ProjectScope)
    (rest : List ProjectScope) (pf : Profile) (ep : Exc) (tp : List Call)
    (h1 : env.get_endpoint c.region "keystone" = .ok u)
    (h2 : env.auth_projects u c.domain c.username c.password = .ok scopes)
    (h3 : scopes.filter (fun scope => scope.enabled) = s0 :: rest)
    (h4 : env.get_token u c.domain c.username c.password = .ok kt)
    (h5 : env.get_project_scope_token kt c.region s0.id = .ok st)
    (h6 : env.generate_profile st c.region none = .ok pf)
    (h7 : _patch_profile env pf = (.error ep, tp)) :
    login env c r =
      (.error ⟨HTTP_401_UNAUTHORIZED, ep.msg⟩, r,
       [.get_endpoint c.region "keystone", .auth_projects u c.domain c.username,
        .get_token u c.domain c.username,
        .get_project_scope_token kt c.region s0.id,
        .generate_profile st c.region none] ++ tp) := by
  simp only [login, h1, h2, h3, h4, h5, h6, h7, Exc.raise401, List.cons_append,
    List.nil_append]

/-- When every step succeeds, `login` returns the patched profile and sets
the session cookie to its JWT payload. -/
lemma login_success (env : Env) (c : Credential) (r : Response)
    (u kt st : String) (scopes : List ProjectScope) (s0 : ProjectScope)
    (rest : List ProjectScope) (pf q : Profile) (tp : List Call)
    (h1 : env.get_endpoint c.region "keystone" = .ok u)
    (h2 : env.auth_projects u c.domain c.username c.password = .ok scopes)
    (h3 : scopes.filter (fun scope => scope.enabled) = s0 :: rest)
    (h4 : env.get_token u c.domain c.username c.password = .ok kt)
    (h5 : env.get_project_scope_token kt c.region s0.id = .ok st)
    (h6 : env.generate_profile st c.region none = .ok pf)
    (h7 : _patch_profile env pf = (.ok q, tp)) :
    login env c r =
      (.ok q,
       { r with cookies := r.cookies ++ [(env.session_name, env.toJWTPayload q)] },
       [.get_endpoint c.region "keystone", .auth_projects u c.domain c.username,
        .get_token u c.domain c.username,
        .get_project_scope_token kt c.region s0.id,
        .generate_profile st c.region none] ++ tp) := by
  simp only [login, h1, h2, h3, h4, h5, h6, h7, List.cons_append, List.nil_append]

/-! ### Helper lemmas: `switch_project` scenarios -/

/-- When token scoping raises, `switch_project` answers 401 with the
exception's message and leaves the response untouched. -/
lemma switch_err_scope_token (env : Env) (pid : String) (pf : Profile)
    (r : Response) (e : Exc)
    (h1 : env.get_project_scope_token pf.keystone_token pf.region pid = .error e) :
    switch_project env pid pf r =
      (.error ⟨HTTP_401_UNAUTHORIZED, e.msg⟩, r,
       [.get_project_scope_token pf.keystone_token pf.region pid]) := by
  simp only [switch_project, h1, Exc.raise401]

/-- When profile generation raises, `switch_project` answers 401 with the
exception's message. -/
lemma switch_err_generate_profile (env : Env) (pid : String) (pf : Profile)
    (r : Response) (st : String) (e : Exc)
    (h1 : env.get_project_scope_token pf.keystone_token pf.region pid = .ok st)
    (h2 : env.generate_profile st pf.region (some pf.uuid) = .error e) :
    switch_project env pid pf r =
      (.error ⟨HTTP_401_UNAUTHORIZED, e.msg⟩, r,
       [.get_project_scope_token pf.keystone_token pf.region pid,
        .generate_profile st pf.region (some pf.uuid)]) := by
  simp only [switch_project, h1, h2, Exc.raise401, List.cons_append, List.nil_append]

/-- When `_patch_profile` raises, `switch_project` answers 401 with that
raised exception's message. -/
lemma switch_err_patch (env : Env) (pid : String) (pf : Profile)
    (r : Response) (st : String) (pf2 : Profile) (ep : Exc) (tp : List Call)
    (h1 : env.get_project_scope_token pf.keystone_token pf.region pid = .ok st)
    (h2 : env.generate_profile st pf.region (some pf.uuid) = .ok pf2)
    (h3 : _patch_profile env pf2 = (.error ep, tp)) :
    switch_project env pid pf r =
      (.error ⟨HTTP_401_UNAUTHORIZED, ep.msg⟩, r,
       [.get_project_scope_token pf.keystone_token pf.region pid,
        .generate_profile st pf.region (some pf.uuid)] ++ tp) := by
  simp only [switch_project, h1, h2, h3, Exc.raise401, List.cons_append, List.nil_append]

/-- When every step succeeds, `switch_project` returns the patched rebuilt
profile and sets the session cookie to its JWT payload. -/
lemma switch_success (env : Env) (pid : String) (pf : Profile)
    (r : Response) (st : String) (pf2 q : Profile) (tp : List Call)
    (h1 : env.get_project_scope_token pf.keystone_token pf.region pid = .ok st)
    (h2 : env.generate_profile st pf.region (some pf.uuid) = .ok pf2)
    (h3 : _patch_profile env pf2 = (.ok q, tp)) :
    switch_project env pid pf r =
      (.ok q,
       { r with cookies := r.cookies ++ [(env.session_name, env.toJWTPayload q)] },
       [.get_project_scope_token pf.keystone_token pf.region pid,
        .generate_profile st pf.region (some pf.uuid)] ++ tp) := by
  simp only [switch_project, h1, h2, h3, List.cons_append, List.nil_append]

/-! ### Helper lemmas: `get_profile` scenarios -/

/-- When the endpoint lookup raises, `get_profile` yields 401 with the
exception's message. -/
lemma get_profile_err_endpoints (env : Env) (p : Profile) (e : Exc)
    (h1 : env.get_endpoints p.region = .error e) :
    get_profile env p =
      (.error ⟨HTTP_401_UNAUTHORIZED, e.msg⟩, [.get_endpoints p.region]) := by
  simp only [get_profile, _patch_profile, h1, Exc.asResponse]

/-- When the project lookup raises, `get_profile` yields 401 with the
exception's message. -/
lemma get_profile_err_projects (env : Env) (p : Profile) (eps : Endpoints) (e : Exc)
    (h1 : env.get_endpoints p.region = .ok eps)
    (h2 : env.get_projects p.region p.user.id = .error e) :
    get_profile env p =
      (.error ⟨HTTP_401_UNAUTHORIZED, e.msg⟩,
       [.get_endpoints p.region, .get_projects p.region p.user.id]) := by
  simp only [get_profile, _patch_profile, h1, h2, Exc.asResponse, List.cons_append,
    List.nil_append]

/-- When both lookups succeed, `get_profile` returns the input profile with
`endpoints` and `projects` overwritten by the lookup results. -/
lemma get_profile_success (env : Env) (p : Profile) (eps : Endpoints)
    (prs : ProjectsInfo)
    (h1 : env.get_endpoints p.region = .ok eps)
    (h2 : env.get_projects p.region p.user.id = .ok prs) :
    get_profile env p =
      (.ok { p with endpoints := some eps, projects := some prs },
       [.get_endpoints p.region, .get_projects p.region p.user.id]) := by
  simp only [get_profile, _patch_profile, h1, h2, List.cons_append, List.nil_append]

/-! ### Helper lemmas: statuses and `logout` -/

/-- The property that a handler outcome is either success or a 401
unauthorized error. -/
def only401 : Except HTTPErr Profile → Prop
  | .error e => e.status_code = HTTP_401_UNAUTHORIZED
  | .ok _ => True

/-- Every error `login` produces carries status 401. -/
lemma login_only401 (env : Env) (c : Credential) (r : Response) :
    only401 (login env c r).1 := by
  unfold login
  repeat' split
  all_goals simp [only401, Exc.raise401]

/-- Every error `get_profile` produces carries status 401. -/
lemma get_profile_only401 (env : Env) (p : Profile) :
    only401 (get_profile env p).1 := by
  rcases hE : env.get_endpoints p.region with e | eps
  · simp [get_profile_err_endpoints env p e hE, only401]
  · rcases hP : env.get_projects p.region p.user.id with e | prs
    · simp [get_profile_err_projects env p eps e hE hP, only401]
    · simp [get_profile_success env p eps prs hE hP, only401]

/-- Every error `switch_project` produces carries status 401. -/
lemma switch_only401 (env : Env) (pid : String) (pf : Profile) (r : Response) :
    only401 (switch_project env pid pf r).1 := by
  unfold switch_project
  repeat' split
  all_goals simp [only401, Exc.raise401]

/-- `logout` always returns `OK("Logout OK")` and always deletes the
session cookie, whatever the payload and whatever the collaborators do. -/
lemma logout_result (env : Env) (payload : Option String) (r : Response) :
    (logout env payload r).1 = ⟨"Logout OK"⟩ ∧
    (logout env payload r).2.1 = { r with deleted := r.deleted ++ [env.session_name] } := by
  exact ⟨rfl, rfl⟩

/-- When the payload is not truthy, `logout` attempts no collaborator call
at all. -/
lemma logout_no_payload_no_calls (env : Env) (payload : Option String) (r : Response)
    (h : truthy payload = false) :
    (logout env payload r).2.2 = [] := by
  match payload with
  | none => rfl
  | some p =>
    simp only [truthy, Bool.not_eq_false'] at h
    simp only [logout, h, if_true]

/-- `login` either fails leaving the response untouched, or succeeds after
appending exactly the session cookie for the returned profile. -/
lemma login_shape (env : Env) (c : Credential) (r : Response) :
    (∃ e, (login env c r).1 = .error e ∧ (login env c r).2.1 = r) ∨
    (∃ p, (login env c r).1 = .ok p ∧ (login env c r).2.1 =
      { r with cookies := r.cookies ++ [(env.session_name, env.toJWTPayload p)] }) := by
  rcases h1 : env.get_endpoint c.region "keystone" with e | u
  · exact .inl ⟨⟨HTTP_401_UNAUTHORIZED, e.msg⟩, by simp [login_err_get_endpoint env c r e h1]⟩
  rcases h2 : env.auth_projects u c.domain c.username c.password with e | scopes
  · exact .inl ⟨⟨HTTP_401_UNAUTHORIZED, e.msg⟩,
      by simp [login_err_auth_projects env c r u e h1 h2]⟩
  rcases h3 : scopes.filter (fun scope => scope.enabled) with _ | ⟨s0, rest⟩
  · exact .inl ⟨⟨HTTP_401_UNAUTHORIZED, "You are not authorized for any projects or domains."⟩,
      by simp [login_no_enabled env c r u scopes h1 h2 h3]⟩
  rcases h4 : env.get_token u c.domain c.username c.password with e | kt
  · exact .inl ⟨⟨HTTP_401_UNAUTHORIZED, e.msg⟩,
      by simp [login_err_get_token env c r u scopes s0 rest e h1 h2 h3 h4]⟩
  rcases h5 : env.get_project_scope_token kt c.region s0.id with e | st
  · exact .inl ⟨⟨HTTP_401_UNAUTHORIZED, e.msg⟩,
      by simp [login_err_scope_token env c r u kt scopes s0 rest e h1 h2 h3 h4 h5]⟩
  rcases h6 : env.generate_profile st c.region none with e | pf
  · exact .inl ⟨⟨HTTP_401_UNAUTHORIZED, e.msg⟩,
      by simp [login_err_generate_profile env c r u kt st scopes s0 rest e h1 h2 h3 h4 h5 h6]⟩
  rcases h7 : _patch_profile env pf with ⟨res, tp⟩
  rcases res with ep | q
  · exact .inl ⟨⟨HTTP_401_UNAUTHORIZED, ep.msg⟩,
      by simp [login_err_patch env c r u kt st scopes s0 rest pf ep tp h1 h2 h3 h4 h5 h6 h7]⟩
  · exact .inr ⟨q,
      by simp [login_success env c r u kt st scopes s0 rest pf q tp h1 h2 h3 h4 h5 h6 h7]⟩

/-- `switch_project` either fails leaving the response untouched, or
succeeds after appending exactly the session cookie for the returned
profile. -/
lemma switch_shape (env : Env) (pid : String) (pf : Profile) (r : Response) :
    (∃ e, (switch_project env pid pf r).1 = .error e ∧
      (switch_project env pid pf r).2.1 = r) ∨
    (∃ p, (switch_project env pid pf r).1 = .ok p ∧
      (switch_project env pid pf r).2.1 =
        { r with cookies := r.cookies ++ [(env.session_name, env.toJWTPayload p)] }) := by
  rcases h1 : env.get_project_scope_token pf.keystone_token pf.region pid with e | st
  · exact .inl ⟨⟨HTTP_401_UNAUTHORIZED, e.msg⟩,
      by simp [switch_err_scope_token env pid pf r e h1]⟩
  rcases h2 : env.generate_profile st pf.region (some pf.uuid) with e | pf2
  · exact .inl ⟨⟨HTTP_401_UNAUTHORIZED, e.msg⟩,
      by simp [switch_err_generate_profile env pid pf r st e h1 h2]⟩
  rcases h3 : _patch_profile env pf2 with ⟨res, tp⟩
  rcases res with ep | q
  · exact .inl ⟨⟨HTTP_401_UNAUTHORIZED, ep.msg⟩,
      by simp [switch_err_patch env pid pf r st pf2 ep tp h1 h2 h3]⟩
  · exact .inr ⟨q, by simp [switch_success env pid pf r st pf2 q tp h1 h2 h3]⟩

/-- The profile that `login envOK cred0 r0` returns. -/
def loginOKProfile : Profile :=
  { user := user0, region := "RegionOne", project := "proj-1",
    keystone_token := "scoped:unscoped-tok:proj-1", exp := 100, uuid := "uuid-new",
    endpoints := some [("keystone", "http://ks")],
    projects := some [("proj-1", "Project One")] }

/-- The profile that `switch_project envOK "proj-2" profile0 r0` returns. -/
def switchOKProfile : Profile :=
  { user := user0, region := "RegionOne", project := "proj-1",
    keystone_token := "scoped:tok-0:proj-2", exp := 100, uuid := "uuid-0",
    endpoints := some [("keystone", "http://ks")],
    projects := some [("proj-1", "Project One")] }

/-- `profile0` after a successful `_patch_profile` under `envOK`. -/
def profile0patched : Profile :=
  { profile0 with endpoints := some [("keystone", "http://ks")],
                  projects := some [("proj-1", "Project One")] }

/-! ### Claim theorems -/

/-- C1, counterexample.  The claim says every one of the four operations
maps any exception raised while processing to an unauthorized response.
`logout` refutes it: in an environment where every collaborator raises,
`logout` with a truthy payload attempts `parse_access_token` (which
raises), yet the outcome is the normal `200 OK` body `"Logout OK"` with the
cookie deleted — not an unauthorized response; `logout` has no error
outcome at all. -/
theorem logout_failure_not_unauthorized_cex :
    envBad.parse_access_token "payload" = .error (.plain "boom") ∧
    logout envBad (some "payload") r0 =
      (⟨"Logout OK"⟩, ⟨[], ["session"]⟩, [.parse_access_token "payload"]) := by
  exact ⟨rfl, rfl⟩

/-- C1, amended: `login`, `get_profile` and `switch_project` map any
exception raised while processing to a 401 unauthorized response and have
no other failure outcome; `logout` instead swallows any exception and
always produces the `200 OK` body `"Logout OK"`. -/
theorem ops_uniform_error_outcome (env : Env) (c : Credential) (r : Response)
    (pid : String) (pf : Profile) (payload : Option String) :
    only401 (login env c r).1 ∧ only401 (get_profile env pf).1 ∧
    only401 (switch_project env pid pf r).1 ∧
    (logout env payload r).1 = ⟨"Logout OK"⟩ :=
  ⟨login_only401 env c r, get_profile_only401 env pf, switch_only401 env pid pf r,
   (logout_result env payload r).1⟩

/-- C2: for every login request, if any step (keystone endpoint lookup,
password-authenticated project enumeration, unscoped-token fetch, token
scoping, profile generation, or the `_patch_profile` step) raises an
exception, `login` fails with a 401 whose detail is that exception's
message, and when every step succeeds it returns the patched profile. -/
theorem login_error_and_success_mapping (env : Env) (c : Credential) (r : Response) :
    (∀ e, env.get_endpoint c.region "keystone" = .error e →
      (login env c r).1 = .error ⟨HTTP_401_UNAUTHORIZED, e.msg⟩) ∧
    (∀ u e, env.get_endpoint c.region "keystone" = .ok u →
      env.auth_projects u c.domain c.username c.password = .error e →
      (login env c r).1 = .error ⟨HTTP_401_UNAUTHORIZED, e.msg⟩) ∧
    (∀ u scopes s0 rest e, env.get_endpoint c.region "keystone" = .ok u →
      env.auth_projects u c.domain c.username c.password = .ok scopes →
      scopes.filter (fun scope => scope.enabled) = s0 :: rest →
      env.get_token u c.domain c.username c.password = .error e →
      (login env c r).1 = .error ⟨HTTP_401_UNAUTHORIZED, e.msg⟩) ∧
    (∀ u scopes s0 rest kt e, env.get_endpoint c.region "keystone" = .ok u →
      env.auth_projects u c.domain c.username c.password = .ok scopes →
      scopes.filter (fun scope => scope.enabled) = s0 :: rest →
      env.get_token u c.domain c.username c.password = .ok kt →
      env.get_project_scope_token kt c.region s0.id = .error e →
      (login env c r).1 = .error ⟨HTTP_401_UNAUTHORIZED, e.msg⟩) ∧
    (∀ u scopes s0 rest kt st e, env.get_endpoint c.region "keystone" = .ok u →
      env.auth_projects u c.domain c.username c.password = .ok scopes →
      scopes.filter (fun scope => scope.enabled) = s0 :: rest →
      env.get_token u c.domain c.username c.password = .ok kt →
      env.get_project_scope_token kt c.region s0.id = .ok st →
      env.generate_profile st c.region none = .error e →
      (login env c r).1 = .error ⟨HTTP_401_UNAUTHORIZED, e.msg⟩) ∧
    (∀ u scopes s0 rest kt st pf ep tp, env.get_endpoint c.region "keystone" = .ok u →
      env.auth_projects u c.domain c.username c.password = .ok scopes →
      scopes.filter (fun scope => scope.enabled) = s0 :: rest →
      env.get_token u c.domain c.username c.password = .ok kt →
      env.get_project_scope_token kt c.region s0.id = .ok st →
      env.generate_profile st c.region none = .ok pf →
      _patch_profile env pf = (.error ep, tp) →
      (login env c r).1 = .error ⟨HTTP_401_UNAUTHORIZED, ep.msg⟩) ∧
    (∀ u scopes s0 rest kt st pf q tp, env.get_endpoint c.region "keystone" = .ok u →
      env.auth_projects u c.domain c.username c.password = .ok scopes →
      scopes.filter (fun scope => scope.enabled) = s0 :: rest →
      env.get_token u c.domain c.username c.password = .ok kt →
      env.get_project_scope_token kt c.region s0.id = .ok st →
      env.generate_profile st c.region none = .ok pf →
      _patch_profile env pf = (.ok q, tp) →
      (login env c r).1 = .ok q) := by
  refine ⟨?_, ?_, ?_, ?_, ?_, ?_, ?_⟩
  · intro e h1
    rw [login_err_get_endpoint env c r e h1]
  · intro u e h1 h2
    rw [login_err_auth_projects env c r u e h1 h2]
  · intro u scopes s0 rest e h1 h2 h3 h4
    rw [login_err_get_token env c r u scopes s0 rest e h1 h2 h3 h4]
  · intro u scopes s0 rest kt e h1 h2 h3 h4 h5
    rw [login_err_scope_token env c r u kt scopes s0 rest e h1 h2 h3 h4 h5]
  · intro u scopes s0 rest kt st e h1 h2 h3 h4 h5 h6
    rw [login_err_generate_profile env c r u kt st scopes s0 rest e h1 h2 h3 h4 h5 h6]
  · intro u scopes s0 rest kt st pf ep tp h1 h2 h3 h4 h5 h6 h7
    rw [login_err_patch env c r u kt st scopes s0 rest pf ep tp h1 h2 h3 h4 h5 h6 h7]
  · intro u scopes s0 rest kt st pf q tp h1 h2 h3 h4 h5 h6 h7
    rw [login_success env c r u kt st scopes s0 rest pf q tp h1 h2 h3 h4 h5 h6 h7]

/-- Witness for C2: in an environment whose keystone endpoint lookup raises
`Exception("boom")`, `login` answers 401 with detail `"boom"`. -/
theorem login_error_and_success_mapping_witness :
    (login envBad cred0 r0).1 = .error ⟨HTTP_401_UNAUTHORIZED, "boom"⟩ :=
  (login_error_and_success_mapping envBad cred0 r0).1 (.plain "boom") rfl

/-- C3: for every successful login, the returned profile carries the token
obtained by exchanging the unscoped password-session token for one scoped
to the id of the first enabled project reported by the identity service.
The hypothesis `hgen` is the spec-level contract of the external profile
builder: the built profile carries the keystone token it was given. -/
theorem login_token_scoped_to_first_enabled (env : Env) (c : Credential) (r : Response)
    (hgen : ∀ t reg u p, env.generate_profile t reg u = .ok p → p.keystone_token = t)
    (p : Profile) (hp : (login env c r).1 = .ok p) :
    ∃ u scopes s0 rest kt st,
      env.get_endpoint c.region "keystone" = .ok u ∧
      env.auth_projects u c.domain c.username c.password = .ok scopes ∧
      scopes.filter (fun scope => scope.enabled) = s0 :: rest ∧
      env.get_token u c.domain c.username c.password = .ok kt ∧
      env.get_project_scope_token kt c.region s0.id = .ok st ∧
      p.keystone_token = st := by
  rcases h1 : env.get_endpoint c.region "keystone" with e | u
  · rw [login_err_get_endpoint env c r e h1] at hp; cases hp
  rcases h2 : env.auth_projects u c.domain c.username c.password with e | scopes
  · rw [login_err_auth_projects env c r u e h1 h2] at hp; cases hp
  rcases h3 : scopes.filter (fun scope => scope.enabled) with _ | ⟨s0, rest⟩
  · rw [login_no_enabled env c r u scopes h1 h2 h3] at hp; cases hp
  rcases h4 : env.get_token u c.domain c.username c.password with e | kt
  · rw [login_err_get_token env c r u scopes s0 rest e h1 h2 h3 h4] at hp; cases hp
  rcases h5 : env.get_project_scope_token kt c.region s0.id with e | st
  · rw [login_err_scope_token env c r u kt scopes s0 rest e h1 h2 h3 h4 h5] at hp
    cases hp
  rcases h6 : env.generate_profile st c.region none with e | pf
  · rw [login_err_generate_profile env c r u kt st scopes s0 rest e h1 h2 h3 h4 h5 h6] at hp
    cases hp
  rcases h7 : _patch_profile env pf with ⟨res, tp⟩
  rcases res with ep | q
  · rw [login_err_patch env c r u kt st scopes s0 rest pf ep tp h1 h2 h3 h4 h5 h6 h7] at hp
    cases hp
  · rw [login_success env c r u kt st scopes s0 rest pf q tp h1 h2 h3 h4 h5 h6 h7] at hp
    obtain ⟨eps, prs, hE, hP, hq⟩ := _patch_profile_ok env pf q (by rw [h7])
    cases hp
    refine ⟨u, scopes, s0, rest, kt, st, rfl, h2, h3, h4, h5, ?_⟩
    rw [hq]
    exact hgen st c.region none pf h6

/-- Witness for C3 at a concrete all-success environment. -/
theorem login_token_scoped_witness :
    ∃ u scopes s0 rest kt st,
      envOK.get_endpoint cred0.region "keystone" = .ok u ∧
      envOK.auth_projects u cred0.domain cred0.username cred0.password = .ok scopes ∧
      scopes.filter (fun scope => scope.enabled) = s0 :: rest ∧
      envOK.get_token u cred0.domain cred0.username cred0.password = .ok kt ∧
      envOK.get_project_scope_token kt cred0.region s0.id = .ok st ∧
      loginOKProfile.keystone_token = st := by
  refine login_token_scoped_to_first_enabled envOK cred0 r0 ?_ loginOKProfile ?_
  · intro t reg u p h
    cases h
    rfl
  · rfl

/-- C4, counterexample.  The claim says every field of the returned profile
equals the corresponding field of the profile the external builder
produced.  `get_profile` refutes it: the handler itself overwrites the
`endpoints` and `projects` fields of the session profile it was handed. -/
theorem profile_passthrough_cex :
    (get_profile envOK profile0).1 = .ok profile0patched ∧
    profile0patched.endpoints ≠ profile0.endpoints ∧
    profile0patched.projects ≠ profile0.projects := by
  refine ⟨rfl, ?_, ?_⟩ <;> simp [profile0patched, profile0]

/-- C4, amended: the handlers never mutate a profile except for its
`endpoints` and `projects` fields, which `_patch_profile` overwrites with
the results of the external endpoint and project lookups; every other field
is passed through unchanged. -/
theorem patch_profile_frame (env : Env) (p q : Profile)
    (h : (_patch_profile env p).1 = .ok q) :
    q.user = p.user ∧ q.region = p.region ∧ q.project = p.project ∧
    q.keystone_token = p.keystone_token ∧ q.exp = p.exp ∧ q.uuid = p.uuid ∧
    ∃ eps prs, env.get_endpoints p.region = .ok eps ∧
      env.get_projects p.region p.user.id = .ok prs ∧
      q.endpoints = some eps ∧ q.projects = some prs := by
  obtain ⟨eps, prs, hE, hP, hq⟩ := _patch_profile_ok env p q h
  subst hq
  exact ⟨rfl, rfl, rfl, rfl, rfl, rfl, eps, prs, hE, hP, rfl, rfl⟩

/-- Witness for C4's amended frame property at a concrete input. -/
theorem patch_profile_frame_witness :
    profile0patched.user = profile0.user ∧ profile0patched.region = profile0.region ∧
    profile0patched.project = profile0.project ∧
    profile0patched.keystone_token = profile0.keystone_token ∧
    profile0patched.exp = profile0.exp ∧ profile0patched.uuid = profile0.uuid ∧
    ∃ eps prs, envOK.get_endpoints profile0.region = .ok eps ∧
      envOK.get_projects profile0.region profile0.user.id = .ok prs ∧
      profile0patched.endpoints = some eps ∧ profile0patched.projects = some prs :=
  patch_profile_frame envOK profile0 profile0patched rfl

/-- C5: for `login` and `switch_project`, the session cookie is set to the
JWT payload of the resulting profile exactly when the operation succeeds;
on error the response state is unchanged. -/
theorem cookie_set_iff_success (env : Env) (c : Credential) (r : Response)
    (pid : String) (pf : Profile) :
    (∀ p, (login env c r).1 = .ok p →
      (login env c r).2.1 =
        { r with cookies := r.cookies ++ [(env.session_name, env.toJWTPayload p)] }) ∧
    (∀ e, (login env c r).1 = .error e → (login env c r).2.1 = r) ∧
    (∀ p, (switch_project env pid pf r).1 = .ok p →
      (switch_project env pid pf r).2.1 =
        { r with cookies := r.cookies ++ [(env.session_name, env.toJWTPayload p)] }) ∧
    (∀ e, (switch_project env pid pf r).1 = .error e →
      (switch_project env pid pf r).2.1 = r) := by
  refine ⟨?_, ?_, ?_, ?_⟩
  · intro p hp
    rcases login_shape env c r with ⟨e, he, _⟩ | ⟨p', hp', hc⟩
    · rw [hp] at he; cases he
    · rw [hp] at hp'
      cases hp'
      exact hc
  · intro e he
    rcases login_shape env c r with ⟨e', _, hr⟩ | ⟨p', hp', _⟩
    · exact hr
    · rw [he] at hp'; cases hp'
  · intro p hp
    rcases switch_shape env pid pf r with ⟨e, he, _⟩ | ⟨p', hp', hc⟩
    · rw [hp] at he; cases he
    · rw [hp] at hp'
      cases hp'
      exact hc
  · intro e he
    rcases switch_shape env pid pf r with ⟨e', _, hr⟩ | ⟨p', hp', _⟩
    · exact hr
    · rw [he] at hp'; cases hp'

/-- Witness for C5: the concrete cookie set on a successful login and
switch, and the untouched response on failing ones. -/
theorem cookie_set_iff_success_witness :
    (login envOK cred0 r0).2.1 = ⟨[("session", "jwt:uuid-new")], []⟩ ∧
    (login envBad cred0 r0).2.1 = r0 ∧
    (switch_project envOK "proj-2" profile0 r0).2.1 = ⟨[("session", "jwt:uuid-0")], []⟩ ∧
    (switch_project envBad "proj-2" profile0 r0).2.1 = r0 := by
  refine ⟨?_, ?_, ?_, ?_⟩
  · exact (cookie_set_iff_success envOK cred0 r0 "proj-2" profile0).1 loginOKProfile rfl
  · exact (cookie_set_iff_success envBad cred0 r0 "proj-2" profile0).2.1
      ⟨HTTP_401_UNAUTHORIZED, "boom"⟩ rfl
  · exact (cookie_set_iff_success envOK cred0 r0 "proj-2" profile0).2.2.1
      switchOKProfile rfl
  · exact (cookie_set_iff_success envBad cred0 r0 "proj-2" profile0).2.2.2
      ⟨HTTP_401_UNAUTHORIZED, "boom"⟩ rfl

/-- C6: `get_profile` returns the caller's profile with `endpoints` and
`projects` filled in from the external lookups for the profile's region and
user id; it fails — with a 401 carrying the raising exception's message —
exactly when one of those two lookups raises. -/
theorem get_profile_spec (env : Env) (p : Profile) :
    (∀ eps prs, env.get_endpoints p.region = .ok eps →
      env.get_projects p.region p.user.id = .ok prs →
      (get_profile env p).1 = .ok { p with endpoints := some eps, projects := some prs }) ∧
    (∀ e, env.get_endpoints p.region = .error e →
      (get_profile env p).1 = .error ⟨HTTP_401_UNAUTHORIZED, e.msg⟩) ∧
    (∀ eps e, env.get_endpoints p.region = .ok eps →
      env.get_projects p.region p.user.id = .error e →
      (get_profile env p).1 = .error ⟨HTTP_401_UNAUTHORIZED, e.msg⟩) ∧
    ((∃ err, (get_profile env p).1 = .error err) ↔
      ((∃ e, env.get_endpoints p.region = .error e) ∨
       (∃ eps e, env.get_endpoints p.region = .ok eps ∧
         env.get_projects p.region p.user.id = .error e))) := by
  refine ⟨?_, ?_, ?_, ?_⟩
  · intro eps prs h1 h2
    rw [get_profile_success env p eps prs h1 h2]
  · intro e h1
    rw [get_profile_err_endpoints env p e h1]
  · intro eps e h1 h2
    rw [get_profile_err_projects env p eps e h1 h2]
  · constructor
    · rintro ⟨err, herr⟩
      rcases h1 : env.get_endpoints p.region with e | eps
      · exact .inl ⟨e, rfl⟩
      · rcases h2 : env.get_projects p.region p.user.id with e | prs
        · exact .inr ⟨eps, e, rfl, rfl⟩
        · rw [get_profile_success env p eps prs h1 h2] at herr
          cases herr
    · rintro (⟨e, h1⟩ | ⟨eps, e, h1, h2⟩)
      · exact ⟨⟨HTTP_401_UNAUTHORIZED, e.msg⟩,
          by rw [get_profile_err_endpoints env p e h1]⟩
      · exact ⟨⟨HTTP_401_UNAUTHORIZED, e.msg⟩,
          by rw [get_profile_err_projects env p eps e h1 h2]⟩

/-- Witness for C6: a concrete successful profile fetch and a concrete
failing one. -/
theorem get_profile_spec_witness :
    (get_profile envOK profile0).1 = .ok profile0patched ∧
    (get_profile envBad profile0).1 = .error ⟨HTTP_401_UNAUTHORIZED, "boom"⟩ := by
  constructor
  · exact (get_profile_spec envOK profile0).1 [("keystone", "http://ks")]
      [("proj-1", "Project One")] rfl rfl
  · exact (get_profile_spec envBad profile0).2.1 (.plain "boom") rfl

/-- C7: when the credentials authenticate but no enabled project remains
after filtering, `login` answers 401 with the fixed message
`"You are not authorized for any projects or domains."`, the response is
untouched, and neither token scoping nor profile generation is
attempted. -/
theorem login_no_enabled_projects (env : Env) (c : Credential) (r : Response)
    (u : String) (scopes : List ProjectScope)
    (h1 : env.get_endpoint c.region "keystone" = .ok u)
    (h2 : env.auth_projects u c.domain c.username c.password = .ok scopes)
    (h3 : scopes.filter (fun scope => scope.enabled) = []) :
    login env c r =
      (.error ⟨HTTP_401_UNAUTHORIZED, "You are not authorized for any projects or domains."⟩,
       r, [.get_endpoint c.region "keystone", .auth_projects u c.domain c.username]) ∧
    (login env c r).2.2.all
      (fun call => ! call.isScopeToken && ! call.isGenerateProfile) = true := by
  have h := login_no_enabled env c r u scopes h1 h2 h3
  refine ⟨h, ?_⟩
  rw [h]
  rfl

/-- Witness for C7: a concrete environment reporting only a disabled
project. -/
theorem login_no_enabled_projects_witness :
    login envNoProj cred0 r0 =
      (.error ⟨HTTP_401_UNAUTHORIZED, "You are not authorized for any projects or domains."⟩,
       r0, [.get_endpoint "RegionOne" "keystone",
            .auth_projects "http://keystone" "Default" "alice"]) :=
  (login_no_enabled_projects envNoProj cred0 r0 "http://keystone" [⟨"proj-off", false⟩]
    rfl rfl rfl).1

/-- C8: `logout` always returns `200 OK` with `"Logout OK"` and always
deletes the session cookie, whatever the payload and however the
revocation chain behaves; when the payload is absent (or empty, hence not
truthy), no collaborator call is attempted at all. -/
theorem logout_always_ok (env : Env) (payload : Option String) (r : Response) :
    (logout env payload r).1 = ⟨"Logout OK"⟩ ∧
    (logout env payload r).2.1 = { r with deleted := r.deleted ++ [env.session_name] } ∧
    (truthy payload = false → (logout env payload r).2.2 = []) :=
  ⟨(logout_result env payload r).1, (logout_result env payload r).2,
   logout_no_payload_no_calls env payload r⟩

/-- Witness for C8: with every collaborator raising and no payload,
`logout` still answers `"Logout OK"` and attempts nothing. -/
theorem logout_always_ok_witness :
    (logout envBad none r0).1 = ⟨"Logout OK"⟩ ∧
    (logout envBad none r0).2.2 = [] :=
  ⟨(logout_always_ok envBad none r0).1, (logout_always_ok envBad none r0).2.2 rfl⟩

/-- C9: a successful `switch_project` preserves the session identity: the
returned profile keeps the caller's uuid and region, and the only inputs it
is rebuilt from are the newly scoped token together with the caller's
region and uuid (the profile builder is invoked as
`generate_profile(new_token, profile.region, uuid_value=profile.uuid)`).
The hypothesis `hgen` is the spec-level contract of the external profile
builder: the built profile carries the uuid and region it was given. -/
theorem switch_project_preserves_identity (env : Env) (pid : String)
    (pf : Profile) (r : Response)
    (hgen : ∀ t reg x p, env.generate_profile t reg (some x) = .ok p →
      p.uuid = x ∧ p.region = reg)
    (q : Profile) (hq : (switch_project env pid pf r).1 = .ok q) :
    q.uuid = pf.uuid ∧ q.region = pf.region ∧
    ∃ st, env.get_project_scope_token pf.keystone_token pf.region pid = .ok st ∧
      (switch_project env pid pf r).2.2.take 2 =
        [.get_project_scope_token pf.keystone_token pf.region pid,
         .generate_profile st pf.region (some pf.uuid)] := by
  rcases h1 : env.get_project_scope_token pf.keystone_token pf.region pid with e | st
  · rw [switch_err_scope_token env pid pf r e h1] at hq; cases hq
  rcases h2 : env.generate_profile st pf.region (some pf.uuid) with e | pf2
  · rw [switch_err_generate_profile env pid pf r st e h1 h2] at hq; cases hq
  rcases h3 : _patch_profile env pf2 with ⟨res, tp⟩
  rcases res with ep | q'
  · rw [switch_err_patch env pid pf r st pf2 ep tp h1 h2 h3] at hq; cases hq
  · rw [switch_success env pid pf r st pf2 q' tp h1 h2 h3] at hq
    obtain ⟨eps, prs, hE, hP, hq'⟩ := _patch_profile_ok env pf2 q' (by rw [h3])
    cases hq
    obtain ⟨hu, hr⟩ := hgen st pf.region pf.uuid pf2 h2
    refine ⟨by rw [hq', hu], by rw [hq', hr], st, rfl, ?_⟩
    rw [switch_success env pid pf r st pf2 q tp h1 h2 h3]
    rfl

/-- Witness for C9 at a concrete all-success environment. -/
theorem switch_project_preserves_identity_witness :
    switchOKProfile.uuid = profile0.uuid ∧ switchOKProfile.region = profile0.region ∧
    ∃ st, envOK.get_project_scope_token profile0.keystone_token profile0.region
        "proj-2" = .ok st ∧
      (switch_project envOK "proj-2" profile0 r0).2.2.take 2 =
        [.get_project_scope_token profile0.keystone_token profile0.region "proj-2",
         .generate_profile st profile0.region (some profile0.uuid)] := by
  refine switch_project_preserves_identity envOK "proj-2" profile0 r0 ?_ switchOKProfile ?_
  · intro t reg x p h
    cases h
    exact ⟨rfl, rfl⟩
  · rfl

end Skyline
